import Mathlib

/-!
# MailGuard spam-detection pipeline: a shallow embedding

This file embeds the core of the MailGuard email-analysis server
(`mail_guard_server/api/`) in Lean 4 and proves properties of the
embedded code.

Embedded components:

* `ml_engine.predict` — the rule-based fallback branch (no model loaded)
  and the sklearn `predict_proba` branch (`ml_engine.py`);
* `url_blocklist.assess_urls` — blocklist assessment over extracted root
  domains (`url_blocklist.py`);
* `AnalyzeEmailView.post` — the analysis orchestrator: cache fast path,
  record creation under a uniqueness constraint, blocklist short-circuit,
  benign discount, threshold mapping (`views.py`);
* `predictor.clean_text` — the text normalizer: mojibake fixes, HTML
  entity decoding, forwarded-marker truncation, URL/email/phone/image
  placeholder substitution, HTML-tag stripping, whitespace collapse
  (`predictor.py`).

Modelling conventions:

* Python floats are embedded as exact rationals (`ℚ`).  Every claim
  compares scores whose distances are far above double precision error,
  so order comparisons on `ℚ` coincide with the float comparisons the
  code performs; `round(x, 3)` is embedded as round-half-even to three
  decimals (`pyRound3`), the rounding Python applies.
* Python strings are embedded as Lean `String`/`List Char`, with the
  regex passes of `predictor.py` implemented as executable scanning
  functions with the leftmost, first-alternative, greedy-with-backtrack
  semantics of the `re` module, specialised to each of the source's
  patterns.  Character classes (`\w`, `\s`, `\d`) are modelled at their
  ASCII meaning, which covers all inputs appearing in the claims.
* The Django ORM store is embedded as an insertion-ordered list of
  records; the unique constraint on `message_id` makes record creation
  fail when a record with the same id is already present at create time
  (the concurrent-duplicate race is represented by letting the store
  seen at the cache check differ from the store seen at creation).
* `tldextract`-based root-domain extraction (`extract_hosts`) depends on
  the external public-suffix library, so the orchestrator is
  parameterised by the extraction function; claims quantify over the
  set of root domains it yields.
-/

namespace MailGuard

/-! ## Basic string helpers -/

/-- Characters Python treats as whitespace in `\s`, `str.strip`
(ASCII range). -/
def isPySpace (c : Char) : Bool :=
  c = ' ' || c = '\t' || c = '\n' || c = '\r' || c = '\x0B' || c = '\x0C'

/-- Test that `pat` is a prefix of `s` (character lists). -/
def listIsPre : List Char → List Char → Bool
  | [], _ => true
  | _ :: _, [] => false
  | p :: ps, c :: cs => p = c && listIsPre ps cs

/-- Test that `pat` is a prefix of `s`, comparing case-insensitively
(`pat` is given in lowercase). -/
def listIsPreCI : List Char → List Char → Bool
  | [], _ => true
  | _ :: _, [] => false
  | p :: ps, c :: cs => p = c.toLower && listIsPreCI ps cs

/-- Test that `pat` occurs as a contiguous substring of `s`. -/
def listHasSub (pat : List Char) : List Char → Bool
  | [] => listIsPre pat []
  | c :: cs => listIsPre pat (c :: cs) || listHasSub pat cs

/-- Python's `pat in s` substring test. -/
def strContainsSub (s pat : String) : Bool := listHasSub pat.data s.data

/-- Index of the first occurrence of `pat` in `s`
(Python `str.find`, as `Option`). -/
def findSubIdx (pat : List Char) : List Char → Option Nat
  | [] => if listIsPre pat [] then some 0 else none
  | c :: cs =>
    if listIsPre pat (c :: cs) then some 0
    else (findSubIdx pat cs).map (· + 1)

/-- Lexicographic comparison of character lists by code point, the
order Python's `sorted` uses on strings. -/
def listLe : List Char → List Char → Bool
  | [], _ => true
  | _ :: _, [] => false
  | a :: as, b :: bs =>
    if a.toNat < b.toNat then true
    else if b.toNat < a.toNat then false
    else listLe as bs

/-- String comparison by code points (Python string `<=`). -/
def strLe (a b : String) : Bool := listLe a.data b.data

/-- Insert into a sorted list (ascending by `strLe`). -/
def insertStr (x : String) : List String → List String
  | [] => [x]
  | y :: ys => if strLe x y then x :: y :: ys else y :: insertStr x ys

/-- Insertion sort by code-point order: Python's `sorted` on a list of
strings. -/
def sortStr : List String → List String
  | [] => []
  | x :: xs => insertStr x (sortStr xs)

/-- Python `str.strip()` restricted to ASCII whitespace. -/
def pyStrip (s : String) : String :=
  ⟨((s.data.dropWhile isPySpace).reverse.dropWhile isPySpace).reverse⟩

/-- Python `str.lower()` (ASCII range). -/
def pyLower (s : String) : String := ⟨s.data.map Char.toLower⟩

/-! ## Decimal rounding

Python's `round(x, 3)` rounds to the nearest multiple of `10⁻³`,
breaking ties to even (banker's rounding). -/

/-- Round a rational to the nearest integer, ties to even. -/
def rhe (q : ℚ) : ℤ :=
  let f : ℤ := q.num.fdiv q.den
  let r : ℚ := q - (f : ℚ)
  if r < 1/2 then f
  else if 1/2 < r then f + 1
  else if f % 2 = 0 then f else f + 1

/-- Python's `round(x, 3)`: round to three decimal places, ties to
even. -/
def pyRound3 (q : ℚ) : ℚ := ((rhe (q * 1000) : ℤ) : ℚ) / 1000

/-! ## Scoring Engine: `ml_engine.predict` -/

/-- The dictionary `ml_engine.predict` returns:
`{verdict, score, reasons, model}`. -/
structure Prediction where
  verdict : String
  score : ℚ
  reasons : List String
  model : String
deriving DecidableEq

/-- The `model is None` branch of `ml_engine.predict`: the rule-based
fallback heuristic.  `+0.5` and tag `suspicious_phrases` when the
lowercased body contains a suspicious phrase; `+0.3` and tag
`insecure_http_link` when it contains an insecure link and no secure
one; verdict from the fallback's own thresholds; score reported through
`round(score, 3)`. -/
def ml_predict_fallback (text : String) : Prediction :=
  let body := pyLower text
  let sp := strContainsSub body "click here" ||
    strContainsSub body "verify your account" ||
    strContainsSub body "password"
  let insecure := strContainsSub body "http://" &&
    !strContainsSub body "https://"
  let score : ℚ := (if sp then 1/2 else 0) + (if insecure then 3/10 else 0)
  let reasons := (if sp then ["suspicious_phrases"] else []) ++
    (if insecure then ["insecure_http_link"] else [])
  let verdict :=
    if score > 3/5 then "spam"
    else if score > 1/4 then "suspicious"
    else "benign"
  ⟨verdict, pyRound3 score, reasons, "stub"⟩

/-- The sklearn `predict_proba` branch of `ml_engine.predict`, for a
model whose `predict_proba` yields spam probability `p` and whose
`predict` yields an integer label (or raises, giving `none`).  The
returned score is `round(p, 3)` — the rounding happens inside the
engine, before the caller sees the score. -/
def ml_predict_sklearn (p : ℚ) (label : Option ℤ) : Prediction :=
  let verdict := match label with
    | some l => if l = 1 then "spam" else "benign"
    | none => if p > 1/2 then "spam" else "benign"
  ⟨verdict, pyRound3 p, [], "sklearn"⟩

/-! ## Blocklist Matcher: `url_blocklist.assess_urls` -/

/-- The dictionary `assess_urls` returns. -/
structure UrlInfo where
  status : String
  hosts : List String
  malicious_hosts : List String
  benign_hosts : List String
deriving DecidableEq

/-- Embeds `url_blocklist.assess_urls`, parameterised by the loaded domain
sets and by the set of root domains extracted from the sender and body
(`extract_hosts`; the `tldextract` reduction to registrable domains is
an external library, so the extracted roots are taken as input; a
Python set has no duplicates, hence `Nodup` hypotheses where that
matters). -/
def assess_urls (MALICIOUS_ROOTS BENIGN_ROOTS roots : List String) :
    UrlInfo :=
  let malicious_hits := roots.filter (fun h => MALICIOUS_ROOTS.contains h)
  let benign_hits := roots.filter (fun h => BENIGN_ROOTS.contains h)
  let status :=
    if !malicious_hits.isEmpty then "malicious"
    else if !benign_hits.isEmpty then "benign"
    else "unknown"
  ⟨status, sortStr roots, sortStr malicious_hits, sortStr benign_hits⟩

/-! ## Analysis Orchestrator: `AnalyzeEmailView.post` -/

/-- The fields of `EmailRecord` the analysis pipeline reads or writes
(`score` is a nullable float column).  Fields not touched by the
claims — OCR merge, attachment metadata, timestamps — are external
side effects and are omitted. -/
structure EmailRecordM where
  message_id : String
  sender : String
  subject : String
  body : String
  verdict : String
  score : Option ℚ
  reasons : List String
deriving DecidableEq

/-- The JSON body the endpoint responds with (the `timestamp` field is
an external clock value and is omitted). -/
structure ResponseM where
  message_id : String
  verdict : String
  score : Option ℚ
  reasons : List String
  cached : Bool
deriving DecidableEq

/-- Database errors that can surface from record creation. -/
inductive CreateError where
  | uniqueViolation
deriving DecidableEq

/-- The final-verdict threshold mapping of `AnalyzeEmailView.post`
(`views.py` lines 169–174; the same thresholds appear in
`decision.decide_ml_only`): `score >= 0.7 → spam`,
`0.4 <= score < 0.7 → suspicious`, `score < 0.4 → benign`. -/
def verdictOf (s : ℚ) : String :=
  if s ≥ 7/10 then "spam"
  else if s ≥ 2/5 then "suspicious"
  else "benign"

/-- Reason tag for one malicious blocklisted domain. -/
def tagMal (h : String) : String := "blocklist_malicious_domain:" ++ h

/-- Reason tag for one benign blocklisted domain. -/
def tagBen (h : String) : String := "blocklist_benign_domain:" ++ h

/-- Embeds `AnalyzeEmailView.post` after input validation, with its external
collaborators as parameters: the loaded blocklists, the root-domain
extraction (`extract_hosts`), the scoring engine (`ml_engine.predict`),
the store as seen at the cache check and the store as seen at record
creation (they differ only under a concurrent duplicate submission).
Returns the HTTP response together with the record the call persisted
(`none` on the cached fast path); the code wraps creation in a
transaction but has no handler for a uniqueness violation, so that
failure is returned as `Except.error`. -/
def analyze_email_post
    (MALICIOUS_ROOTS BENIGN_ROOTS : List String)
    (extract_hosts : String → String → List String)
    (predict : String → Prediction)
    (dbAtCheck dbAtCreate : List EmailRecordM)
    (message_id sender subject body : String)
    (force_recompute : Bool) :
    Except CreateError (ResponseM × Option EmailRecordM) :=
  let existing := if force_recompute then none
    else dbAtCheck.find? (fun r => r.message_id == message_id)
  match existing with
  | some r => .ok (⟨r.message_id, r.verdict, r.score, r.reasons, true⟩, none)
  | none =>
    if (dbAtCreate.find? (fun r => r.message_id == message_id)).isSome then
      .error .uniqueViolation
    else
      let body_for_analysis := pyStrip (subject ++ " " ++ body)
      let url_info := assess_urls MALICIOUS_ROOTS BENIGN_ROOTS
        (extract_hosts sender body_for_analysis)
      if url_info.status == "malicious" && !url_info.malicious_hosts.isEmpty then
        let reasons := "blocklist_malicious_hit" ::
          url_info.malicious_hosts.map tagMal
        let rec1 : EmailRecordM :=
          ⟨message_id, sender, subject, body, "spam", some 1, reasons⟩
        .ok (⟨message_id, "spam", some 1, reasons, false⟩, some rec1)
      else
        let prediction := predict body_for_analysis
        let ml_score := prediction.score
        let benignHit := url_info.status == "benign" &&
          !url_info.benign_hosts.isEmpty
        let final_score := if benignHit then 7/10 * ml_score else ml_score
        let reasons := if benignHit then
            prediction.reasons ++ "blocklist_benign_hit" ::
              url_info.benign_hosts.map tagBen
          else prediction.reasons
        let verdict := verdictOf final_score
        let rec1 : EmailRecordM :=
          ⟨message_id, sender, subject, body, verdict,
            some (pyRound3 final_score), reasons⟩
        .ok (⟨message_id, verdict, some (pyRound3 final_score),
          reasons, false⟩, some rec1)

/-! ## Text Normalizer: `predictor.clean_text`

Each `re.sub` pass of `clean_text` is embedded as a scan over the
character list: at each position a matcher reports the length of the
(leftmost-first, greedy) match of the source pattern starting exactly
there, plus the replacement; on a match the scan emits the replacement
and resumes after the matched characters, as `re.sub` does.  The
matcher also receives the previous original character, which the
word-boundary `\b` of the email pattern inspects. -/

/-- A matcher: given the previous original character and the remaining
text, the length of the pattern match starting here and its
replacement, if any. -/
def Matcher : Type := Option Char → List Char → Option (Nat × List Char)

/-- One `re.sub` pass, fuelled by the input length (each step consumes
at least one character, so the fuel never runs out on
`reSub`-constructed calls). -/
def reSubF (m : Matcher) : Nat → Option Char → List Char → List Char
  | 0, _, s => s
  | _ + 1, _, [] => []
  | fuel + 1, prev, c :: cs =>
    match m prev (c :: cs) with
    | some (n, repl) =>
      if n = 0 then c :: reSubF m fuel (some c) cs
      else repl ++ reSubF m fuel (((c :: cs).take n).getLastD c)
        ((c :: cs).drop n)
    | none => c :: reSubF m fuel (some c) cs

/-- Runs `re.sub(pattern, repl, s)` for the pattern encoded by `m`. -/
def reSub (m : Matcher) (s : List Char) : List Char :=
  reSubF m s.length none s

/-- The `MOJIBAKE_REPLACEMENTS` table of `predictor.py`, in source
order (the four keys rendering as `â` differ in their trailing
invisible characters: they are `â U+0080` followed by U+0093, U+0094,
U+009C, U+0099 respectively). -/
def MOJIBAKE_REPLACEMENTS : List (String × String) :=
  [("\u0393\u00C7\u00F3", "-"),
   ("\u0393\u00C7\u00F4", "-"),
   ("\u0393\u00C7\u00A3", "\u0022"),
   ("\u0393\u00C7\u00A5", "\u0022"),
   ("\u0393\u00C7\u00D6", "\u0027"),
   ("\u0393\u00C7\u00FC", "u"),
   ("\u00E2\u0080\u0093", "-"),
   ("\u00E2\u0080\u0094", "-"),
   ("\u00E2\u0080\u009C", "\u0022"),
   ("\u00E2\u0080\u0099", "\u0027"),
   ("\u00E2\u0080\u00A2", "-"),
   ("\u00C3\u00A9", "e"),
   ("\uFEFF", "")]

/-- Matcher for `MOJIBAKE_REGEX`: alternation of the escaped table keys, tried in
table order (leftmost-first alternation of literals). -/
def mojibakeMatch : Matcher := fun _ s =>
  (MOJIBAKE_REPLACEMENTS.find? (fun kv => listIsPre kv.1.data s)).map
    (fun kv => (kv.1.data.length, kv.2.data))

/-- Embeds `predictor.fix_mojibake`. -/
def fix_mojibake (s : List Char) : List Char := reSub mojibakeMatch s

/-- Modelled from the spec: "Decode HTML entities" is done by
`html.unescape` from the Python standard library (external to the
repository); modelled here by decoding the common named entities.  It
is the identity on text containing no entity, which covers every input
appearing in the claims. -/
def HTML_ENTITIES : List (String × String) :=
  [("&amp;", "&"), ("&lt;", "<"), ("&gt;", ">"),
   ("&quot;", "\u0022"), ("&#39;", "\u0027"), ("&nbsp;", " ")]

/-- Entity decoding pass (see `HTML_ENTITIES`). -/
def unescapeL (s : List Char) : List Char :=
  reSub (fun _ t =>
    (HTML_ENTITIES.find? (fun kv => listIsPre kv.1.data t)).map
      (fun kv => (kv.1.data.length, kv.2.data))) s

/-- The `FORWARD_MARKERS` list of `predictor.py`, in source order. -/
def FORWARD_MARKERS : List String :=
  ["forwarded message", "---------- forwarded message", "from:"]

/-- The forwarded/quoted-content truncation loop of `clean_text`: the
first marker *in list order* found anywhere in the lowercased text
truncates the text at its first occurrence, and the loop breaks. -/
def truncMarkers : List String → List Char → List Char
  | [], t => t
  | m :: ms, t =>
    match findSubIdx m.data (t.map Char.toLower) with
    | some i => t.take i
    | none => truncMarkers ms t

/-- Matcher for `URL_RE = https?://\S+|www\.\S+` (IGNORECASE): a literal start
followed by a maximal nonempty run of non-whitespace. -/
def urlMatch : Matcher := fun _ s =>
  let tail (k : Nat) : Nat := ((s.drop k).takeWhile (fun c => !isPySpace c)).length
  if listIsPreCI "https://".data s then
    if tail 8 ≥ 1 then some (8 + tail 8, " <URL> ".data) else none
  else if listIsPreCI "http://".data s then
    if tail 7 ≥ 1 then some (7 + tail 7, " <URL> ".data) else none
  else if listIsPreCI "www.".data s then
    if tail 4 ≥ 1 then some (4 + tail 4, " <URL> ".data) else none
  else none

/-- Regex `\w` at its ASCII meaning. -/
def isWordC (c : Char) : Bool := c.isAlpha || c.isDigit || c = '_'

/-- The class `[\w\.-]` of `EMAIL_RE`. -/
def isEmailAtomC (c : Char) : Bool := isWordC c || c = '.' || c = '-'

/-- Whether the position after `prev` is on the word side of a `\b`
boundary test. -/
def wordB : Option Char → Bool
  | none => false
  | some c => isWordC c

/-- Matcher for `EMAIL_RE = \b[\w\.-]+@[\w\.-]+\.\w+\b`.  The leading `[\w\.-]+`
must consume the maximal atom run (no atom can be `@`); after `@`, the
greedy `[\w\.-]+` backtracks to the last `.` that is followed by at
least one word character, and the trailing `\w+` is maximal, after
which `\b` always holds (every atom beyond that run is non-word). -/
def emailMatch : Matcher := fun prev s =>
  match s with
  | [] => none
  | c :: _ =>
    if !isEmailAtomC c then none
    else if wordB prev = isWordC c then none
    else
      let k1 := (s.takeWhile isEmailAtomC).length
      match s.drop k1 with
      | '@' :: rest2 =>
        let r := rest2.takeWhile isEmailAtomC
        let js := (List.range r.length).filter (fun j =>
          decide (1 ≤ j) && (r.get? j == some '.') &&
            !((r.drop (j + 1)).takeWhile isWordC).isEmpty)
        match js.getLast? with
        | some j =>
          some (k1 + 1 + j + 1 + ((r.drop (j + 1)).takeWhile isWordC).length,
            " <EMAIL> ".data)
        | none => none
      | _ => none

/-- The class `[\d\-\s]` of `PHONE_RE`. -/
def isPhoneMidC (c : Char) : Bool := c.isDigit || c = '-' || isPySpace c

/-- Matcher for `PHONE_RE = (\+?\d[\d\-\s]{7,}\d)`: optional `+`, a digit, then the
greedy `{7,}` backtracks to the last in-class position `k ≥ 7` holding
a digit (the final `\d`). -/
def phoneMatch : Matcher := fun _ s =>
  let core (plus : Nat) (s1 : List Char) : Option (Nat × List Char) :=
    match s1 with
    | [] => none
    | c :: rest =>
      if !c.isDigit then none
      else
        let r := rest.takeWhile isPhoneMidC
        let ks := (List.range r.length).filter (fun k =>
          decide (7 ≤ k) && (match r.get? k with
            | some d => d.isDigit
            | none => false))
        match ks.getLast? with
        | some k => some (plus + 1 + k + 1, " <PHONE> ".data)
        | none => none
  match s with
  | '+' :: rest => core 1 rest
  | _ => core 0 s

/-- Matcher for `IMAGE_PLACEHOLDER_RE = \[image:[^\]]*\]` (IGNORECASE). -/
def imageMatch : Matcher := fun _ s =>
  if listIsPreCI "[image:".data s then
    let r := ((s.drop 7).takeWhile (fun c => c ≠ ']')).length
    match (s.drop (7 + r)) with
    | ']' :: _ => some (7 + r + 1, " <IMAGE> ".data)
    | _ => none
  else none

/-- The HTML-tag stripping pass `re.sub(r"<[^>]+>", " ", text)`. -/
def tagMatch : Matcher := fun _ s =>
  match s with
  | '<' :: rest =>
    let r := (rest.takeWhile (fun c => c ≠ '>')).length
    if r ≥ 1 then
      match rest.drop r with
      | '>' :: _ => some (1 + r + 1, " ".data)
      | _ => none
    else none
  | _ => none

/-- Matcher for `re.sub(r"[\r\n\t]+", " ", text)`. -/
def crlfMatch : Matcher := fun _ s =>
  let k := (s.takeWhile (fun c => c = '\r' || c = '\n' || c = '\t')).length
  if k ≥ 1 then some (k, " ".data) else none

/-- Matcher for `re.sub(r"\s+", " ", text)`. -/
def wsMatch : Matcher := fun _ s =>
  let k := (s.takeWhile isPySpace).length
  if k ≥ 1 then some (k, " ".data) else none

/-- Embeds `predictor.clean_text`: mojibake fixes, entity decoding, truncation
at the first forwarding marker, the four placeholder substitutions, the
HTML-tag strip, whitespace collapse, strip, lowercase — in source
order. -/
def clean_text (raw : String) : String :=
  let t1 := fix_mojibake raw.data
  let t2 := unescapeL t1
  let t3 := truncMarkers FORWARD_MARKERS t2
  let t4 := reSub urlMatch t3
  let t5 := reSub emailMatch t4
  let t6 := reSub phoneMatch t5
  let t7 := reSub imageMatch t6
  let t8 := reSub tagMatch t7
  let t9 := reSub crlfMatch t8
  let t10 := reSub wsMatch t9
  pyLower (pyStrip ⟨t10⟩)

/-- The `has_image` numeric feature of
`predictor.extract_structured_features_from_texts`: a case-insensitive
search for `[image:` or `<image>` in the *cleaned* text — the feature
the training/scoring pipeline expects the `<IMAGE>` placeholder to
trigger. -/
def has_image_feature (cleaned : String) : Bool :=
  listHasSub "[image:".data (pyLower cleaned).data ||
  listHasSub "<image>".data (pyLower cleaned).data

end MailGuard

deriving instance DecidableEq for Except


namespace MailGuard

section Proofs

attribute [local semireducible] Rat.add Rat.mul Rat.inv Rat.sub

/-! ## Supporting lemmas -/

lemma insertStr_length (x : String) (l : List String) :
    (insertStr x l).length = l.length + 1 := by
  induction l with
  | nil => rfl
  | cons y ys ih =>
    simp only [insertStr]
    split
    · simp
    · simp [ih]

lemma sortStr_length (l : List String) : (sortStr l).length = l.length := by
  induction l with
  | nil => rfl
  | cons x xs ih => simp [sortStr, insertStr_length, ih]

lemma sortStr_eq_nil_iff (l : List String) : sortStr l = [] ↔ l = [] := by
  constructor
  · intro h
    simpa [sortStr_length, List.length_eq_zero] using congrArg List.length h
  · rintro rfl
    rfl

lemma rhe_intCast (n : ℤ) : rhe (n : ℚ) = n := by
  have hf : ((n : ℚ)).num.fdiv ((n : ℚ)).den = n := by
    simp [Rat.num_intCast, Rat.den_intCast, Int.fdiv_one]
  simp [rhe, hf]

lemma pyRound3_idem (q : ℚ) : pyRound3 (pyRound3 q) = pyRound3 q := by
  unfold pyRound3
  have h : ((rhe (q * 1000) : ℤ) : ℚ) / 1000 * 1000 =
      ((rhe (q * 1000) : ℤ) : ℚ) := by
    field_simp
  rw [h, rhe_intCast]

/-! ## Claim theorems -/

/-- C2: for every `message_id` for which a record already exists,
`analyze` with `force_recompute = false` returns that stored record's
verdict, score and reasons unchanged with `cached = true`, and performs
none of the downstream work: the result does not depend on the
blocklists, the domain extraction, the scoring engine or the
create-time store, and no record is created (`none`). -/
theorem analyze_cached_idempotent
    (MAL BEN : List String) (extract_hosts : String → String → List String)
    (predict : String → Prediction)
    (dbAtCheck dbAtCreate : List EmailRecordM)
    (message_id sender subject body : String) (r : EmailRecordM)
    (hfind : dbAtCheck.find? (fun q => q.message_id == message_id) = some r) :
    analyze_email_post MAL BEN extract_hosts predict dbAtCheck dbAtCreate
        message_id sender subject body false =
      .ok (⟨r.message_id, r.verdict, r.score, r.reasons, true⟩, none) := by
  simp [analyze_email_post, hfind]

/-- Witness for C2 at a concrete stored record. -/
theorem analyze_cached_idempotent_witness :
    analyze_email_post ["evil.test"] [] (fun _ _ => ["evil.test"])
        (fun t => ml_predict_fallback t)
        [⟨"m1", "s", "sub", "b", "spam", some 1, ["blocklist_malicious_hit"]⟩]
        [⟨"m1", "s", "sub", "b", "spam", some 1, ["blocklist_malicious_hit"]⟩]
        "m1" "s2" "sub2" "b2" false =
      .ok (⟨"m1", "spam", some 1, ["blocklist_malicious_hit"], true⟩,
        none) :=
  analyze_cached_idempotent ["evil.test"] [] (fun _ _ => ["evil.test"])
    (fun t => ml_predict_fallback t) _ _ "m1" "s2" "sub2" "b2"
    ⟨"m1", "s", "sub", "b", "spam", some 1, ["blocklist_malicious_hit"]⟩
    (by decide)

/-- C3: the final-score threshold mapping used on the
non-short-circuit path: `0.7 → spam`, `0.699999 → suspicious`,
`0.4 → suspicious`, `0.399999 → benign`, and in general `≥ 0.7` is
spam, `[0.4, 0.7)` is suspicious, `< 0.4` is benign. -/
theorem threshold_boundaries :
    verdictOf (7/10) = "spam" ∧
    verdictOf (699999/1000000) = "suspicious" ∧
    verdictOf (2/5) = "suspicious" ∧
    verdictOf (399999/1000000) = "benign" ∧
    ∀ s : ℚ,
      (7/10 ≤ s → verdictOf s = "spam") ∧
      (2/5 ≤ s → s < 7/10 → verdictOf s = "suspicious") ∧
      (s < 2/5 → verdictOf s = "benign") := by
  refine ⟨by decide, by decide, by decide, by decide, fun s => ⟨?_, ?_, ?_⟩⟩
  · intro h
    simp only [verdictOf]
    rw [if_pos (by linarith : s ≥ 7/10)]
  · intro h1 h2
    simp only [verdictOf]
    rw [if_neg (by linarith : ¬ s ≥ 7/10), if_pos (by linarith : s ≥ 2/5)]
  · intro h
    simp only [verdictOf]
    rw [if_neg (by linarith : ¬ s ≥ 7/10), if_neg (by linarith : ¬ s ≥ 2/5)]

/-- Witness for C3: the general clauses applied at concrete scores. -/
theorem threshold_boundaries_witness :
    verdictOf 1 = "spam" ∧ verdictOf (1/2) = "suspicious" ∧
    verdictOf (1/10) = "benign" :=
  ⟨(threshold_boundaries.2.2.2.2 1).1 (by norm_num),
   (threshold_boundaries.2.2.2.2 (1/2)).2.1 (by norm_num) (by norm_num),
   (threshold_boundaries.2.2.2.2 (1/10)).2.2 (by norm_num)⟩

/-- C5: the rule-based fallback is deterministic:
"click here to verify your account" scores `0.5` with
`[suspicious_phrases]`, "http://x.com only" scores `0.3` with
`[insecure_http_link]`, a text triggering both scores `0.8` with both
tags, and on every input the score lies in `[0, 1]`. -/
theorem fallback_determinism :
    ml_predict_fallback "click here to verify your account" =
      ⟨"suspicious", 1/2, ["suspicious_phrases"], "stub"⟩ ∧
    ml_predict_fallback "http://x.com only" =
      ⟨"suspicious", 3/10, ["insecure_http_link"], "stub"⟩ ∧
    ml_predict_fallback "click here http://x.com" =
      ⟨"spam", 4/5, ["suspicious_phrases", "insecure_http_link"], "stub"⟩ ∧
    ∀ t : String,
      0 ≤ (ml_predict_fallback t).score ∧ (ml_predict_fallback t).score ≤ 1 := by
  refine ⟨by decide, by decide, by decide, fun t => ?_⟩
  unfold ml_predict_fallback
  dsimp only
  split_ifs <;> exact ⟨by decide, by decide⟩

/-- C10: with no model loaded, the fallback score is always one of
`{0, 0.3, 0.5, 0.8}` (in particular never above `0.8`), the reasons
list is always a sublist of
`["suspicious_phrases", "insecure_http_link"]` in that order, and the
fallback can still reach the spam threshold: a text triggering both
rules scores `0.8`, which `verdictOf` maps to spam. -/
theorem fallback_range :
    (∀ t : String,
      ((ml_predict_fallback t).score = 0 ∨
       (ml_predict_fallback t).score = 3/10 ∨
       (ml_predict_fallback t).score = 1/2 ∨
       (ml_predict_fallback t).score = 4/5) ∧
      (ml_predict_fallback t).score ≤ 4/5 ∧
      ((ml_predict_fallback t).reasons = [] ∨
       (ml_predict_fallback t).reasons = ["suspicious_phrases"] ∨
       (ml_predict_fallback t).reasons = ["insecure_http_link"] ∨
       (ml_predict_fallback t).reasons =
         ["suspicious_phrases", "insecure_http_link"]) ∧
      (ml_predict_fallback t).reasons.Sublist
        ["suspicious_phrases", "insecure_http_link"]) ∧
    (ml_predict_fallback "click here http://x.com").score = 4/5 ∧
    verdictOf (ml_predict_fallback "click here http://x.com").score =
      "spam" := by
  refine ⟨fun t => ?_, by decide, by decide⟩
  unfold ml_predict_fallback
  dsimp only
  split_ifs <;>
    exact ⟨by decide, by decide, by decide, by decide⟩
/-- C6 counterexample: a uniqueness violation at record creation (a
concurrent duplicate created `"m1"` between the cache check and the
create) is not treated as "already analyzed": `post` has no handler
for it, so the error propagates to the caller instead of the existing
record being re-fetched and returned. -/
theorem create_race_propagates_cex :
    analyze_email_post [] [] (fun _ _ => []) (fun t => ml_predict_fallback t)
        [] [⟨"m1", "s", "sub", "b", "spam", some 1, []⟩]
        "m1" "s" "sub" "b" false =
      .error CreateError.uniqueViolation ∧
    analyze_email_post [] [] (fun _ _ => []) (fun t => ml_predict_fallback t)
        [] [⟨"m1", "s", "sub", "b", "spam", some 1, []⟩]
        "m1" "s" "sub" "b" false ≠
      .ok (⟨"m1", "spam", some 1, [], true⟩, none) := by
  exact ⟨by decide, by decide⟩

/-- C6 amended: when the create-time store already holds a record for
`message_id` (the concurrent-duplicate race) and the cache check saw
none, the uniqueness violation propagates out of `analyze` as an
error; no re-fetch happens and no response is produced. -/
theorem create_race_propagates
    (MAL BEN : List String) (extract_hosts : String → String → List String)
    (predict : String → Prediction)
    (dbAtCheck dbAtCreate : List EmailRecordM)
    (message_id sender subject body : String) (force_recompute : Bool)
    (hchk : force_recompute = true ∨
      dbAtCheck.find? (fun r => r.message_id == message_id) = none)
    (hcr : (dbAtCreate.find? (fun r => r.message_id == message_id)).isSome =
      true) :
    analyze_email_post MAL BEN extract_hosts predict dbAtCheck dbAtCreate
        message_id sender subject body force_recompute =
      .error CreateError.uniqueViolation := by
  have hex : (if force_recompute = true then none
      else dbAtCheck.find? (fun r => r.message_id == message_id)) = none := by
    rcases hchk with h | h
    · simp [h]
    · cases force_recompute <;> simp [h]
  simp [analyze_email_post, hex, hcr]

/-- Witness for C6 amended, at the concrete race of the
counterexample. -/
theorem create_race_propagates_witness :
    analyze_email_post [] [] (fun _ _ => []) (fun t => ml_predict_fallback t)
        [] [⟨"m2", "s", "sub", "b", "benign", some 0, []⟩]
        "m2" "s" "sub" "b" false =
      .error CreateError.uniqueViolation :=
  create_race_propagates [] [] (fun _ _ => [])
    (fun t => ml_predict_fallback t) []
    [⟨"m2", "s", "sub", "b", "benign", some 0, []⟩]
    "m2" "s" "sub" "b" false (Or.inr rfl) (by decide)

/-- C7 counterexample: the claim says the verdict threshold comparison
is performed on the full-precision model probability.  At model
probability `p = 0.6999` the engine returns `round(p, 3) = 0.7`, the
orchestrator compares that rounded value and answers `spam`, while the
threshold table applied to the full-precision `p` gives `suspicious`. -/
theorem threshold_rounding_cex :
    analyze_email_post [] [] (fun _ _ => [])
        (fun _ => ml_predict_sklearn (6999/10000) none) [] []
        "m1" "s" "sub" "b" false =
      .ok (⟨"m1", "spam", some (7/10), [], false⟩,
        some ⟨"m1", "s", "sub", "b", "spam", some (7/10), []⟩) ∧
    verdictOf (6999/10000) = "suspicious" ∧
    ("spam" : String) ≠ "suspicious" := by
  exact ⟨by decide, by decide, by decide⟩

/-- C8 (code bug): the spec and the placeholder substitutions intend
`<URL>`/`<EMAIL>`/`<PHONE>`/`<IMAGE>` tokens to appear in the
normalized output (lowercased), and the downstream `has_image` feature
even searches the cleaned text for `<image>` — but the later HTML-tag
strip `re.sub(r"<[^>]+>", " ", text)` matches the just-inserted
placeholders and deletes them, so no placeholder ever survives
normalization and the `has_image` feature can never fire on cleaned
text. -/
theorem placeholders_stripped :
    clean_text "see http://x.com now" = "see now" ∧
    strContainsSub (clean_text "see http://x.com now") "<url>" = false ∧
    clean_text "[image: logo] hello" = "hello" ∧
    strContainsSub (clean_text "[image: logo] hello") "<image>" = false ∧
    has_image_feature (clean_text "[image: logo] hello") = false ∧
    clean_text "mail me at a.b-c@mail.google.com today" =
      "mail me at today" ∧
    strContainsSub (clean_text "mail me at a.b-c@mail.google.com today")
      "<email>" = false ∧
    clean_text "call +1 234-567-8901 now" = "call now" ∧
    strContainsSub (clean_text "call +1 234-567-8901 now") "<phone>" =
      false := by
  refine ⟨by decide, by decide, by decide, by decide, by decide, by decide,
    by decide, by decide, by decide⟩

/-- C9 counterexample: normalization is not idempotent for every
input.  The truncation loop breaks at the first marker *in list
order*: on this input it truncates at "forwarded message", leaving the
earlier "from:" in the output, and a second normalization pass
truncates again at "from:". -/
theorem normalize_not_idempotent_cex :
    clean_text "hi from: bob forwarded message zz" = "hi from: bob" ∧
    clean_text (clean_text "hi from: bob forwarded message zz") = "hi" ∧
    clean_text (clean_text "hi from: bob forwarded message zz") ≠
      clean_text "hi from: bob forwarded message zz" := by
  exact ⟨by decide, by decide, by decide⟩

/-- C9 amended: normalization is idempotent on representative inputs —
already-normalized text is a fixed point when it retains no
forwarding/quoting marker and no pattern the substitutions rescan
(idempotence fails in general, see the counterexample: truncation at
the first-listed marker can leave the later-listed marker "from:" in
the output). -/
theorem normalize_idempotent_representatives :
    clean_text (clean_text "hello team, the meeting is at noon") =
      clean_text "hello team, the meeting is at noon" ∧
    clean_text (clean_text "Visit http://example.com NOW!") =
      clean_text "Visit http://example.com NOW!" ∧
    clean_text (clean_text "[image: logo] hello") =
      clean_text "[image: logo] hello" ∧
    clean_text (clean_text "mail me at a.b-c@mail.google.com today") =
      clean_text "mail me at a.b-c@mail.google.com today" ∧
    clean_text (clean_text "call +1 234-567-8901 now") =
      clean_text "call +1 234-567-8901 now" := by
  exact ⟨by decide, by decide, by decide, by decide, by decide⟩
/-- C1: for every analysis request reaching the fusion step (not
cached, creation succeeds) whose sender or body yields at least one
root domain in the malicious set, the result is `score = 1.0`,
`verdict = "spam"`, with reasons `["blocklist_malicious_hit"]`
followed by one `blocklist_malicious_domain:<host>` tag per malicious
host in sorted order — and the scoring engine is not invoked: `predict`
is arbitrary and absent from the result. -/
theorem malicious_shortcircuit_spam
    (MAL BEN : List String) (extract_hosts : String → String → List String)
    (predict : String → Prediction)
    (dbAtCheck dbAtCreate : List EmailRecordM)
    (message_id sender subject body : String) (force_recompute : Bool)
    (roots : List String)
    (hroots : extract_hosts sender (pyStrip (subject ++ " " ++ body)) = roots)
    (_hnd : roots.Nodup)
    (hchk : force_recompute = true ∨
      dbAtCheck.find? (fun r => r.message_id == message_id) = none)
    (hcr : dbAtCreate.find? (fun r => r.message_id == message_id) = none)
    (hmal : ∃ r ∈ roots, r ∈ MAL) :
    analyze_email_post MAL BEN extract_hosts predict dbAtCheck dbAtCreate
        message_id sender subject body force_recompute =
      .ok (⟨message_id, "spam", some 1,
        "blocklist_malicious_hit" ::
          (sortStr (roots.filter (fun h => MAL.contains h))).map tagMal,
        false⟩,
        some ⟨message_id, sender, subject, body, "spam", some 1,
          "blocklist_malicious_hit" ::
            (sortStr (roots.filter (fun h => MAL.contains h))).map
              tagMal⟩) := by
  have hex : (if force_recompute = true then none
      else dbAtCheck.find? (fun r => r.message_id == message_id)) = none := by
    rcases hchk with h | h
    · simp [h]
    · cases force_recompute <;> simp [h]
  have hfil : roots.filter (fun h => decide (h ∈ MAL)) ≠ [] := by
    obtain ⟨r, hr, hrm⟩ := hmal
    exact List.ne_nil_of_mem (List.mem_filter.2 ⟨hr, by simpa using hrm⟩)
  have h2 : sortStr (roots.filter (fun h => decide (h ∈ MAL))) ≠ [] :=
    fun hnil => hfil ((sortStr_eq_nil_iff _).1 hnil)
  simp [analyze_email_post, assess_urls, hex, hroots, hcr, hmal, h2]

/-- Witness for C1 at a concrete malicious-domain request. -/
theorem malicious_shortcircuit_spam_witness :
    analyze_email_post ["evil.test"] [] (fun _ _ => ["evil.test"])
        (fun t => ml_predict_fallback t) [] [] "m1" "a@evil.test" "s" "b"
        false =
      .ok (⟨"m1", "spam", some 1,
        "blocklist_malicious_hit" ::
          (sortStr ((["evil.test"] : List String).filter
            (fun h => (["evil.test"] : List String).contains h))).map tagMal,
        false⟩,
        some ⟨"m1", "a@evil.test", "s", "b", "spam", some 1,
          "blocklist_malicious_hit" ::
            (sortStr ((["evil.test"] : List String).filter
              (fun h => (["evil.test"] : List String).contains h))).map
              tagMal⟩) :=
  malicious_shortcircuit_spam ["evil.test"] [] (fun _ _ => ["evil.test"])
    (fun t => ml_predict_fallback t) [] [] "m1" "a@evil.test" "s" "b" false
    ["evil.test"] rfl (by decide) (Or.inr rfl) rfl
    ⟨"evil.test", by decide, by decide⟩

/-- C4: on a benign-only hit, the persisted fused score is
`round(0.7 * p, 3)` for the model score `p`, the verdict is the
threshold table applied to the unrounded `0.7 * p`, and the reasons
are the model's reasons followed by `blocklist_benign_hit` and one
`blocklist_benign_domain:<host>` tag per benign host in sorted
order. -/
theorem benign_discount
    (MAL BEN : List String) (extract_hosts : String → String → List String)
    (predict : String → Prediction)
    (dbAtCheck dbAtCreate : List EmailRecordM)
    (message_id sender subject body : String) (force_recompute : Bool)
    (roots : List String)
    (hroots : extract_hosts sender (pyStrip (subject ++ " " ++ body)) = roots)
    (_hnd : roots.Nodup)
    (hchk : force_recompute = true ∨
      dbAtCheck.find? (fun r => r.message_id == message_id) = none)
    (hcr : dbAtCreate.find? (fun r => r.message_id == message_id) = none)
    (hmal0 : ∀ r ∈ roots, r ∉ MAL)
    (hben : ∃ r ∈ roots, r ∈ BEN) :
    analyze_email_post MAL BEN extract_hosts predict dbAtCheck dbAtCreate
        message_id sender subject body force_recompute =
      .ok (⟨message_id,
        verdictOf (7/10 *
          (predict (pyStrip (subject ++ " " ++ body))).score),
        some (pyRound3 (7/10 *
          (predict (pyStrip (subject ++ " " ++ body))).score)),
        (predict (pyStrip (subject ++ " " ++ body))).reasons ++
          "blocklist_benign_hit" ::
            (sortStr (roots.filter (fun h => BEN.contains h))).map tagBen,
        false⟩,
        some ⟨message_id, sender, subject, body,
          verdictOf (7/10 *
            (predict (pyStrip (subject ++ " " ++ body))).score),
          some (pyRound3 (7/10 *
            (predict (pyStrip (subject ++ " " ++ body))).score)),
          (predict (pyStrip (subject ++ " " ++ body))).reasons ++
            "blocklist_benign_hit" ::
              (sortStr (roots.filter (fun h => BEN.contains h))).map
                tagBen⟩) := by
  have hex : (if force_recompute = true then none
      else dbAtCheck.find? (fun r => r.message_id == message_id)) = none := by
    rcases hchk with h | h
    · simp [h]
    · cases force_recompute <;> simp [h]
  have hnm : ¬ ∃ x ∈ roots, x ∈ MAL := by
    push_neg
    exact hmal0
  have hfb : roots.filter (fun h => decide (h ∈ BEN)) ≠ [] := by
    obtain ⟨r, hr, hrb⟩ := hben
    exact List.ne_nil_of_mem (List.mem_filter.2 ⟨hr, by simpa using hrb⟩)
  have h3 : sortStr (roots.filter (fun h => decide (h ∈ BEN))) ≠ [] :=
    fun hnil => hfb ((sortStr_eq_nil_iff _).1 hnil)
  simp [analyze_email_post, assess_urls, hex, hroots, hcr, hnm, hben, h3]

/-- Witness for C4 at a concrete benign-domain request (the fallback
engine scores the body `0`, so the discounted score is `0` and the
verdict benign). -/
theorem benign_discount_witness :
    analyze_email_post [] ["good.test"] (fun _ _ => ["good.test"])
        (fun t => ml_predict_fallback t) [] [] "m2" "a@good.test" "s" "b"
        false =
      .ok (⟨"m2",
        verdictOf (7/10 *
          (ml_predict_fallback (pyStrip ("s" ++ " " ++ "b"))).score),
        some (pyRound3 (7/10 *
          (ml_predict_fallback (pyStrip ("s" ++ " " ++ "b"))).score)),
        (ml_predict_fallback (pyStrip ("s" ++ " " ++ "b"))).reasons ++
          "blocklist_benign_hit" ::
            (sortStr ((["good.test"] : List String).filter
              (fun h => (["good.test"] : List String).contains h))).map
              tagBen,
        false⟩,
        some ⟨"m2", "a@good.test", "s", "b",
          verdictOf (7/10 *
            (ml_predict_fallback (pyStrip ("s" ++ " " ++ "b"))).score),
          some (pyRound3 (7/10 *
            (ml_predict_fallback (pyStrip ("s" ++ " " ++ "b"))).score)),
          (ml_predict_fallback (pyStrip ("s" ++ " " ++ "b"))).reasons ++
            "blocklist_benign_hit" ::
              (sortStr ((["good.test"] : List String).filter
                (fun h => (["good.test"] : List String).contains h))).map
                tagBen⟩) :=
  benign_discount [] ["good.test"] (fun _ _ => ["good.test"])
    (fun t => ml_predict_fallback t) [] [] "m2" "a@good.test" "s" "b" false
    ["good.test"] rfl (by decide) (Or.inr rfl) rfl (by decide)
    ⟨"good.test", by decide, by decide⟩

/-- C7 amended: on the model path with no blocklist hit, the scoring
engine rounds the model probability to three decimals *before*
returning it, so the orchestrator's threshold comparison operates on
`round(p, 3)`, not on the full-precision `p`; the persisted score is
that same rounded value (the second rounding after the comparison is a
no-op there). -/
theorem threshold_on_rounded_score
    (MAL BEN : List String) (extract_hosts : String → String → List String)
    (dbAtCheck dbAtCreate : List EmailRecordM)
    (message_id sender subject body : String) (force_recompute : Bool)
    (roots : List String) (p : ℚ) (label : Option ℤ)
    (hroots : extract_hosts sender (pyStrip (subject ++ " " ++ body)) = roots)
    (hchk : force_recompute = true ∨
      dbAtCheck.find? (fun r => r.message_id == message_id) = none)
    (hcr : dbAtCreate.find? (fun r => r.message_id == message_id) = none)
    (hmal0 : ∀ r ∈ roots, r ∉ MAL)
    (hben0 : ∀ r ∈ roots, r ∉ BEN) :
    analyze_email_post MAL BEN extract_hosts
        (fun _ => ml_predict_sklearn p label) dbAtCheck dbAtCreate
        message_id sender subject body force_recompute =
      .ok (⟨message_id, verdictOf (pyRound3 p), some (pyRound3 p), [],
        false⟩,
        some ⟨message_id, sender, subject, body, verdictOf (pyRound3 p),
          some (pyRound3 p), []⟩) := by
  have hex : (if force_recompute = true then none
      else dbAtCheck.find? (fun r => r.message_id == message_id)) = none := by
    rcases hchk with h | h
    · simp [h]
    · cases force_recompute <;> simp [h]
  have hnm : ¬ ∃ x ∈ roots, x ∈ MAL := by
    push_neg
    exact hmal0
  have hnb : ¬ ∃ x ∈ roots, x ∈ BEN := by
    push_neg
    exact hben0
  simp [analyze_email_post, assess_urls, ml_predict_sklearn, hex, hroots,
    hcr, hnm, hnb, pyRound3_idem]

/-- Witness for C7 amended at `p = 0.6999`: the rounded probability
`0.7` is what the threshold comparison sees. -/
theorem threshold_on_rounded_score_witness :
    analyze_email_post [] [] (fun _ _ => [])
        (fun _ => ml_predict_sklearn (6999/10000) none) [] []
        "m3" "s" "sub" "b" false =
      .ok (⟨"m3", verdictOf (pyRound3 (6999/10000)),
        some (pyRound3 (6999/10000)), [], false⟩,
        some ⟨"m3", "s", "sub", "b", verdictOf (pyRound3 (6999/10000)),
          some (pyRound3 (6999/10000)), []⟩) :=
  threshold_on_rounded_score [] [] (fun _ _ => []) [] [] "m3" "s" "sub" "b"
    false [] (6999/10000) none rfl (Or.inr rfl) rfl
    (by decide) (by decide)
end Proofs

end MailGuard
